import Mathlib

/-!
Shallow embedding of the hero-background animation driver
(`src/app/components/hero/hero.ts`) of the portfolio repository.

Numbers are modelled as exact rationals (the source uses JS doubles; all
constants appearing in the source — 0.02, 0.03, 1.2, … — are decimal
literals, embedded exactly).  Calls to `Math.sin` and `Math.random` are
modelled as oracle inputs: each frame receives the three sine values
(hypothesised to lie in [-1, 1]) and the random draws (hypothesised to lie
in [0, 1)) that the source would obtain, so every definition stays
executable and the theorems quantify over every possible oracle answer.
-/

namespace Hero

/-- The `animationType` field of a cube's `userData`: `'collapse'` or
`'expand'`. -/
inductive AnimType
  | collapse
  | expand
deriving DecidableEq

/-- The `expandDirection` field of a cube's `userData`: `'up'` or `'down'`. -/
inductive Dir
  | up
  | down
deriving DecidableEq

/-- The five-entry palette record produced by `updateThemeColors` and read
by `animate`. -/
structure Colors where
  wireframe : Nat
  wireframeHover : Nat
  fill : Nat
  fillHover : Nat
  highlightFill : Nat
deriving DecidableEq

/-- The hard-coded palette used by `animate` when `currentColors` has not
been set yet (hero.ts lines 250–256). -/
def fallbackColors : Colors :=
  { wireframe := 0xffffff
    wireframeHover := 0x000000
    fill := 0x000000
    fillHover := 0xffffff
    highlightFill := 0xffffff }

/-- The theme value delivered by the theme service. -/
inductive Theme
  | light
  | dark
deriving DecidableEq

/-- The palette computed by `updateThemeColors` (hero.ts lines 233–239). -/
def themeColors (theme : Theme) : Colors :=
  let isDarkMode : Bool := theme = Theme.dark
  { wireframe := if isDarkMode then 0xffffff else 0x000000
    wireframeHover := if isDarkMode then 0x000000 else 0xffffff
    fill := if isDarkMode then 0x000000 else 0xffffff
    fillHover := if isDarkMode then 0xffffff else 0x000000
    highlightFill := if isDarkMode then 0xffffff else 0x000000 }

/-- `(this as any).currentColors || { … fallback … }` at the top of
`animate`: the cached palette when present, the fallback otherwise. -/
def colorsOrFallback (cached : Option Colors) : Colors :=
  cached.getD fallbackColors

/-- `Math.random() > 0.5 ? 'collapse' : 'expand'`. -/
def pickType (roll : ℚ) : AnimType :=
  if roll > 0.5 then AnimType.collapse else AnimType.expand

/-- `Math.random() > 0.5 ? 'up' : 'down'`. -/
def pickDir (roll : ℚ) : Dir :=
  if roll > 0.5 then Dir.up else Dir.down

/-- The mutable per-cell animation state stored in `cube.userData`
(hero.ts lines 146–164). -/
structure CellData where
  x : Nat
  z : Nat
  baseY : ℚ
  highlightTime : ℚ
  isCollapsing : Bool
  collapseProgress : ℚ
  isHidden : Bool
  hideStartTime : ℚ
  spawnDelay : ℚ
  hasSpawned : Bool
  isGrowing : Bool
  growProgress : ℚ
  animationType : AnimType
  expandDirection : Dir
  isRetracting : Bool
  isHovered : Bool
deriving DecidableEq

/-- The render-side state the update writes to: `cube.visible`,
`cube.scale.y`, `cube.position.y`, the fill material's opacity and color,
and the wireframe material's color. -/
structure CellView where
  visible : Bool
  scaleY : ℚ
  posY : ℚ
  opacity : ℚ
  fillColor : Nat
  wireColor : Nat
deriving DecidableEq

/-- The `userData` record `createCubes` installs on the cube at grid
coordinates (x, z); the three rolls stand for the `Math.random()` calls
for `spawnDelay`, `animationType` and `expandDirection`. -/
def initCell (x z : Nat) (spawnRoll typeRoll dirRoll : ℚ) : CellData :=
  { x := x
    z := z
    baseY := 0
    highlightTime := ((x : ℚ) * 2 + (z : ℚ) * 3) * 0.5
    isCollapsing := false
    collapseProgress := 0
    isHidden := false
    hideStartTime := 0
    spawnDelay := spawnRoll * 3
    hasSpawned := false
    isGrowing := false
    growProgress := 0
    animationType := pickType typeRoll
    expandDirection := pickDir dirRoll
    isRetracting := false
    isHovered := false }

/-- A freshly created cube's render state: invisible (`cube.visible =
false`), default unit scale, material opacity 0, default white material
colors. -/
def initView : CellView :=
  { visible := false
    scaleY := 1
    posY := 0
    opacity := 0
    fillColor := 0xffffff
    wireColor := 0xffffff }

/-- The random draws a single cell may consume during one frame of
`animate`: the draw in the hidden-reappearance test, and the two draws
re-randomizing `animationType` / `expandDirection` when a collapse ends. -/
structure Roll where
  hideRoll : ℚ
  typeRoll : ℚ
  dirRoll : ℚ

/-- All of a `Roll`'s draws lie in `Math.random()`'s range [0,1). -/
def Roll.Valid (r : Roll) : Prop :=
  0 ≤ r.hideRoll ∧ r.hideRoll < 1 ∧ 0 ≤ r.typeRoll ∧ r.typeRoll < 1 ∧
    0 ≤ r.dirRoll ∧ r.dirRoll < 1

/-- `targetScale` of one frame (hero.ts lines 287–292), taking the three
`Math.sin` evaluations as oracle inputs `s1 s2 s3`. -/
def targetScaleOf (s1 s2 s3 : ℚ) : ℚ :=
  let wave1 := s1 * 2
  let wave2 := s2 * 2
  let wave3 := s3 * 1.5
  let height := (wave1 + wave2 + wave3) / 3
  1 + height * 0.5

/-- JavaScript's `%` operator on rationals: remainder after truncating
division (sign of the dividend). -/
def jsMod (a b : ℚ) : ℚ :=
  a - b * (if 0 ≤ a / b then ((⌊a / b⌋ : ℤ) : ℚ) else ((⌈a / b⌉ : ℤ) : ℚ))

/-- `const highlightCycle = (this.time + highlightTime) % 18` (line 312). -/
def highlightCycleOf (time highlightTime : ℚ) : ℚ :=
  jsMod (time + highlightTime) 18

/-- `const isHighlighted = !this.hoveredCube && highlightCycle < 0.5`
(line 313); `hovered` is the `hoveredCube` reference (an index, or none). -/
def isHighlightedOf (hovered : Option Nat) (cycle : ℚ) : Bool :=
  hovered.isNone && decide (cycle < 0.5)

/-- Outcome of one early-return block of the per-cell update: `done` when
the block executed `return`, `cont` when control falls through. -/
inductive StageRes
  | done (c : CellData) (v : CellView)
  | cont (c : CellData) (v : CellView)

/-- The cell state carried by a stage outcome. -/
def StageRes.cell : StageRes → CellData
  | StageRes.done c _ => c
  | StageRes.cont c _ => c

/-- The view state carried by a stage outcome. -/
def StageRes.view : StageRes → CellView
  | StageRes.done _ v => v
  | StageRes.cont _ v => v

/-- The initial-spawn block (hero.ts lines 262–271): an unspawned cell
spawns once `time` strictly exceeds its `spawnDelay`, else the update
returns for this cell. -/
def spawnStep (time : ℚ) (c : CellData) (v : CellView) : StageRes :=
  if c.hasSpawned then StageRes.cont c v
  else if time > c.spawnDelay then
    StageRes.cont
      { c with hasSpawned := true, isGrowing := true, growProgress := 0 }
      { v with visible := true }
  else StageRes.done c v

/-- The hidden-reappearance block (hero.ts lines 274–284): a hidden cell
reappears once the time since hiding strictly exceeds `2 + Math.random()*2`
(drawn afresh each frame), else the update returns for this cell. -/
def hiddenStep (time hideRoll : ℚ) (c : CellData) (v : CellView) : StageRes :=
  if c.isHidden then
    if time - c.hideStartTime > 2 + hideRoll * 2 then
      StageRes.cont
        { c with isHidden := false, isGrowing := true, growProgress := 0 }
        { v with visible := true }
    else StageRes.done c v
  else StageRes.cont c v

/-- The growing block (hero.ts lines 295–309): progress advances by 0.03,
clamps at 1 (leaving growing mode), and the frame's visuals are written. -/
def growStep (targetScale : ℚ) (colors : Colors) (c : CellData) (v : CellView) :
    StageRes :=
  if c.isGrowing then
    let p := c.growProgress + 0.03
    let c1 := if p ≥ 1 then { c with isGrowing := false, growProgress := 1 }
              else { c with growProgress := p }
    StageRes.done c1
      { v with scaleY := targetScale * c1.growProgress
               posY := 0
               opacity := 0
               fillColor := colors.fill
               wireColor := colors.wireframe }
  else StageRes.cont c v

/-- `cube.scale.y` in the first phase of the expand animation
(hero.ts line 343). -/
def expandScaleY (targetScale p : ℚ) : ℚ :=
  let maxScale := targetScale + 5
  targetScale + (maxScale - targetScale) * (p * 2)

/-- `cube.position.y` in the first phase of the expand animation
(hero.ts lines 345–349). -/
def expandPosY (d : Dir) (targetScale p : ℚ) : ℚ :=
  let sy := expandScaleY targetScale p
  if d = Dir.up then (sy - targetScale) / 2 else -((sy - targetScale) / 2)

/-- `cube.scale.y` while retracting (hero.ts line 363). -/
def retractScaleY (targetScale p : ℚ) : ℚ :=
  let maxScale := targetScale + 5
  maxScale * (1 - p)

/-- `cube.position.y` while retracting (hero.ts lines 365–369). -/
def retractPosY (d : Dir) (targetScale p : ℚ) : ℚ :=
  let maxScale := targetScale + 5
  if d = Dir.up then (maxScale - targetScale) / 2 + (maxScale * p) / 2
  else -((maxScale - targetScale) / 2) - (maxScale * p) / 2

/-- The collapsing block (hero.ts lines 316–377), covering both the
shrinking (`animationType = 'collapse'`) and the expand-then-retract
sub-modes; `typeRoll`/`dirRoll` stand for the re-randomizing draws on
collapse end. -/
def collapseStep (time targetScale typeRoll dirRoll : ℚ) (colors : Colors)
    (c : CellData) (v : CellView) : StageRes :=
  if c.isCollapsing then
    let p := c.collapseProgress + 0.02
    if c.animationType = AnimType.collapse then
      if p ≥ 1 then
        StageRes.done
          { c with isCollapsing := false, collapseProgress := p,
                   isHidden := true, hideStartTime := time,
                   animationType := pickType typeRoll,
                   expandDirection := pickDir dirRoll }
          { v with visible := false }
      else
        StageRes.done { c with collapseProgress := p }
          { v with scaleY := targetScale * (1 - p)
                   posY := 0
                   opacity := 0.3
                   fillColor := colors.highlightFill
                   wireColor := colors.wireframe }
    else
      if ¬ c.isRetracting then
        if p ≥ 0.5 then
          StageRes.done { c with isRetracting := true, collapseProgress := 0 }
            { v with opacity := 0.3
                     fillColor := colors.highlightFill
                     wireColor := colors.wireframe }
        else
          StageRes.done { c with collapseProgress := p }
            { v with scaleY := expandScaleY targetScale p
                     posY := expandPosY c.expandDirection targetScale p
                     opacity := 0.3
                     fillColor := colors.highlightFill
                     wireColor := colors.wireframe }
      else
        if p ≥ 1 then
          StageRes.done
            { c with isCollapsing := false, isRetracting := false,
                     collapseProgress := p, isHidden := true,
                     hideStartTime := time,
                     animationType := pickType typeRoll,
                     expandDirection := pickDir dirRoll }
            { v with visible := false }
        else
          StageRes.done { c with collapseProgress := p }
            { v with scaleY := retractScaleY targetScale p
                     posY := retractPosY c.expandDirection targetScale p
                     opacity := 0.3
                     fillColor := colors.highlightFill
                     wireColor := colors.wireframe }
  else StageRes.cont c v

/-- The tail of the per-cell update (hero.ts lines 380–403): the normal
wave transform, the highlight-window collapse trigger, then the
hover/highlight/base color selection. -/
def idleStep (hovered : Option Nat) (id : Nat) (cycle : ℚ) (highlighted : Bool)
    (targetScale : ℚ) (colors : Colors) (c : CellData) (v : CellView) :
    CellData × CellView :=
  let v1 := { v with scaleY := targetScale, posY := 0 }
  let c1 := if highlighted = true ∧ (0.3 : ℚ) < cycle ∧ cycle < 0.35 then
      { c with isCollapsing := true, collapseProgress := 0 }
    else c
  if hovered = some id ∧ c1.isCollapsing = false then
    (c1, { v1 with opacity := 1
                   fillColor := colors.fillHover
                   wireColor := colors.wireframeHover })
  else if highlighted = true ∧ c1.isCollapsing = false then
    (c1, { v1 with opacity := 0.3
                   fillColor := colors.highlightFill
                   wireColor := colors.wireframe })
  else if c1.isCollapsing = false then
    (c1, { v1 with opacity := 0
                   fillColor := colors.fill
                   wireColor := colors.wireframe })
  else (c1, v1)

/-- One cell's pass through the body of `this.cubes.forEach` in `animate`
(hero.ts lines 258–404): the spawn, hidden, growing and collapsing blocks
in source order, each able to return early, then the idle tail.  `time` is
the already-advanced clock, `hovered` the `hoveredCube` reference, `id`
this cell's index, `s1 s2 s3` the frame's sine evaluations, `r` the
frame's random draws. -/
def animateCell (time : ℚ) (colors : Colors) (hovered : Option Nat) (id : Nat)
    (s1 s2 s3 : ℚ) (r : Roll) (c : CellData) (v : CellView) :
    CellData × CellView :=
  match spawnStep time c v with
  | StageRes.done c' v' => (c', v')
  | StageRes.cont c1 v1 =>
    match hiddenStep time r.hideRoll c1 v1 with
    | StageRes.done c' v' => (c', v')
    | StageRes.cont c2 v2 =>
      let targetScale := targetScaleOf s1 s2 s3
      match growStep targetScale colors c2 v2 with
      | StageRes.done c' v' => (c', v')
      | StageRes.cont c3 v3 =>
        let cycle := highlightCycleOf time c3.highlightTime
        let highlighted := isHighlightedOf hovered cycle
        match collapseStep time targetScale r.typeRoll r.dirRoll colors c3 v3 with
        | StageRes.done c' v' => (c', v')
        | StageRes.cont c4 v4 =>
          idleStep hovered id cycle highlighted targetScale colors c4 v4

/-- The clear-previous-hover block of the mouse-move handler
(hero.ts lines 198–201): the previously hovered cell's flag is cleared
unless that cell is mid-collapse. -/
def clearPrevHover (cells : List CellData) (hovered : Option Nat) :
    List CellData :=
  match hovered with
  | none => cells
  | some i =>
    match cells[i]? with
    | none => cells
    | some c =>
      if c.isCollapsing then cells
      else cells.set i { c with isHovered := false }

/-- The mouse-move handler (hero.ts lines 176–212) after raycasting:
`hit` is the nearest intersected cell's index (none when the ray misses
everything, as when the pointer is off-canvas).  Returns the updated cell
list and the new `hoveredCube` reference. -/
def handleMouseMove (cells : List CellData) (hovered hit : Option Nat) :
    List CellData × Option Nat :=
  let cells1 := clearPrevHover cells hovered
  match hit with
  | some j =>
    match cells1[j]? with
    | none => (cells1, some j)
    | some c =>
      if c.isCollapsing then (cells1, some j)
      else (cells1.set j { c with isHovered := true }, some j)
  | none => (cells1, none)

/-- The five mutually exclusive cell modes of the specification, derived
from the flags `hasSpawned`, `isGrowing`, `isCollapsing`, `isHidden`. -/
def modeFlags (c : CellData) : List Bool :=
  [!c.hasSpawned,
   c.hasSpawned && c.isGrowing,
   c.hasSpawned && c.isCollapsing,
   c.hasSpawned && c.isHidden,
   c.hasSpawned && !c.isGrowing && !c.isCollapsing && !c.isHidden]

/-- Exactly one of the five derived modes (not-yet-spawned, growing,
collapsing, hidden, idle) holds for the cell. -/
def ExactlyOneMode (c : CellData) : Prop :=
  (modeFlags c).count true = 1

/-- The inductive flag invariant: an unspawned cell has all animation
flags cleared, and at most one of growing / collapsing / hidden is set. -/
def FlagInv (c : CellData) : Prop :=
  (c.hasSpawned = false →
    c.isGrowing = false ∧ c.isCollapsing = false ∧ c.isHidden = false) ∧
  ¬(c.isGrowing = true ∧ c.isCollapsing = true) ∧
  ¬(c.isGrowing = true ∧ c.isHidden = true) ∧
  ¬(c.isCollapsing = true ∧ c.isHidden = true)

/-- The cell states reachable for one cell of the grid: its creation
state, a pass of the per-frame update (over any oracle answers), and a
hover-flag write (the only cell mutation the mouse-move handler
performs). -/
inductive ReachableCell : CellData → Prop
  | init (x z : Nat) (spawnRoll typeRoll dirRoll : ℚ) :
      ReachableCell (initCell x z spawnRoll typeRoll dirRoll)
  | frame (time : ℚ) (colors : Colors) (hovered : Option Nat) (id : Nat)
      (s1 s2 s3 : ℚ) (r : Roll) (c : CellData) (v : CellView) :
      ReachableCell c →
      ReachableCell (animateCell time colors hovered id s1 s2 s3 r c v).1
  | hover (b : Bool) (c : CellData) :
      ReachableCell c → ReachableCell { c with isHovered := b }

/-! ## Teardown model (`ngOnDestroy`, hero.ts lines 52–76)

`cancelAnimationFrame`, `window.removeEventListener` and the three.js
`dispose` calls are all specified to be total no-ops when their target is
absent or already released, so the environment side is modelled as pure
state: whether a frame callback is pending, whether each listener is
registered, and disposal flags.  `actualRemovals` counts the
`removeEventListener` calls that found a registered listener. -/

/-- The disposable resources of one cube: its geometry and material and
its wireframe's geometry and material, with presence and disposal flags. -/
structure CubeRes where
  geomPresent : Bool
  matIsMaterial : Bool
  wirePresent : Bool
  wireGeomPresent : Bool
  wireMatPresent : Bool
  geomDisposed : Bool
  matDisposed : Bool
  wireGeomDisposed : Bool
  wireMatDisposed : Bool
deriving DecidableEq

/-- The per-cube disposal body of `ngOnDestroy` (hero.ts lines 65–75):
each `dispose` call is guarded by a presence check. -/
def disposeCube (cb : CubeRes) : CubeRes :=
  let cb1 := if cb.geomPresent then { cb with geomDisposed := true } else cb
  let cb2 := if cb1.matIsMaterial then { cb1 with matDisposed := true } else cb1
  if cb2.wirePresent then
    let cb3 := if cb2.wireGeomPresent then { cb2 with wireGeomDisposed := true }
               else cb2
    if cb3.wireMatPresent then { cb3 with wireMatDisposed := true } else cb3
  else cb2

/-- The component fields `ngOnDestroy` reads, together with the
environment state its calls act on. -/
structure HeroLifecycle where
  animationId : Option Nat
  pendingFrame : Bool
  hasRemoveResize : Bool
  hasRemoveMouse : Bool
  resizeRegistered : Bool
  mouseRegistered : Bool
  rendererPresent : Bool
  rendererDisposed : Bool
  cubes : List CubeRes
  actualRemovals : Nat
deriving DecidableEq

/-- `ngOnDestroy` (hero.ts lines 52–76): cancel the pending frame if an
id was stored, invoke each stored listener-cleanup closure, dispose the
renderer if present, then dispose every cube's resources.  None of the
component fields are reset, exactly as in the source. -/
def ngOnDestroy (s : HeroLifecycle) : HeroLifecycle :=
  let s1 := match s.animationId with
    | some _ => { s with pendingFrame := false }
    | none => s
  let s2 := if s1.hasRemoveResize then
      { s1 with resizeRegistered := false
                actualRemovals :=
                  if s1.resizeRegistered then s1.actualRemovals + 1
                  else s1.actualRemovals }
    else s1
  let s3 := if s2.hasRemoveMouse then
      { s2 with mouseRegistered := false
                actualRemovals :=
                  if s2.mouseRegistered then s2.actualRemovals + 1
                  else s2.actualRemovals }
    else s2
  let s4 := if s3.rendererPresent then { s3 with rendererDisposed := true }
            else s3
  { s4 with cubes := s4.cubes.map disposeCube }

/-- The component's lifecycle state when `ngOnDestroy` runs without the
scene ever having been set up: no stored animation id, no cleanup
closures, no renderer, empty cube list, nothing registered. -/
def neverSetUp : HeroLifecycle :=
  { animationId := none
    pendingFrame := false
    hasRemoveResize := false
    hasRemoveMouse := false
    resizeRegistered := false
    mouseRegistered := false
    rendererPresent := false
    rendererDisposed := false
    cubes := []
    actualRemovals := 0 }

/-! ## Frame iteration for one cell

`runCell` runs the per-frame update `n` times on one cell, the clock
advancing by 0.02 before each pass exactly as `animate` does (`this.time`
starts at 0), with per-frame oracle answers supplied by a stream. -/

/-- The oracle answers one frame delivers to one cell: the cached palette
(or none), the `hoveredCube` reference, the three sine values and the
random draws. -/
structure FrameIn where
  cached : Option Colors
  hovered : Option Nat
  s1 : ℚ
  s2 : ℚ
  s3 : ℚ
  roll : Roll

/-- Iterate the per-cell update: frame `k+1` runs at clock time
`(k+1) * 0.02`. -/
def runCell (id : Nat) (orc : Nat → FrameIn) (c0 : CellData) (v0 : CellView) :
    Nat → CellData × CellView
  | 0 => (c0, v0)
  | n + 1 =>
    let (c, v) := runCell id orc c0 v0 n
    let f := orc n
    animateCell (((n : ℚ) + 1) * 0.02) (colorsOrFallback f.cached) f.hovered id
      f.s1 f.s2 f.s3 f.roll c v

/-! ## Stage characterization lemmas -/

theorem spawnStep_done_eq {time : ℚ} {c c' : CellData} {v v' : CellView}
    (e : spawnStep time c v = StageRes.done c' v') : c' = c ∧ v' = v := by
  unfold spawnStep at e
  split at e
  · cases e
  · split at e
    · cases e
    · cases e; exact ⟨rfl, rfl⟩

theorem spawnStep_cont_cases {time : ℚ} {c c1 : CellData} {v v1 : CellView}
    (e : spawnStep time c v = StageRes.cont c1 v1) :
    (c1 = c ∧ v1 = v ∧ c.hasSpawned = true) ∨
    (c.hasSpawned = false ∧ time > c.spawnDelay ∧
      c1 = { c with hasSpawned := true, isGrowing := true, growProgress := 0 } ∧
      v1 = { v with visible := true }) := by
  unfold spawnStep at e
  split at e
  · cases e
    exact Or.inl ⟨rfl, rfl, by simpa using (by assumption : c.hasSpawned = true)⟩
  · split at e
    · cases e
      exact Or.inr ⟨by simpa using (by assumption : ¬ c.hasSpawned = true),
        by assumption, rfl, rfl⟩
    · cases e

theorem hiddenStep_done_eq {time roll : ℚ} {c c' : CellData} {v v' : CellView}
    (e : hiddenStep time roll c v = StageRes.done c' v') : c' = c ∧ v' = v := by
  unfold hiddenStep at e
  split at e
  · split at e
    · cases e
    · cases e; exact ⟨rfl, rfl⟩
  · cases e

theorem hiddenStep_cont_cases {time roll : ℚ} {c c1 : CellData} {v v1 : CellView}
    (e : hiddenStep time roll c v = StageRes.cont c1 v1) :
    (c1 = c ∧ v1 = v ∧ c.isHidden = false) ∨
    (c.isHidden = true ∧ time - c.hideStartTime > 2 + roll * 2 ∧
      c1 = { c with isHidden := false, isGrowing := true, growProgress := 0 } ∧
      v1 = { v with visible := true }) := by
  unfold hiddenStep at e
  split at e
  · split at e
    · cases e
      exact Or.inr ⟨by simpa using (by assumption : c.isHidden = true),
        by assumption, rfl, rfl⟩
    · cases e
  · cases e
    exact Or.inl ⟨rfl, rfl, by simpa using (by assumption : ¬ c.isHidden = true)⟩

theorem growStep_cont_eq {t : ℚ} {colors : Colors} {c c1 : CellData}
    {v v1 : CellView} (e : growStep t colors c v = StageRes.cont c1 v1) :
    c1 = c ∧ v1 = v ∧ c.isGrowing = false := by
  unfold growStep at e
  split at e
  · cases e
  · cases e
    exact ⟨rfl, rfl, by simpa using (by assumption : ¬ c.isGrowing = true)⟩

theorem growStep_done_flags {t : ℚ} {colors : Colors} {c c' : CellData}
    {v v' : CellView} (e : growStep t colors c v = StageRes.done c' v') :
    c.isGrowing = true ∧ c'.hasSpawned = c.hasSpawned ∧
      c'.isCollapsing = c.isCollapsing ∧ c'.isHidden = c.isHidden := by
  unfold growStep at e
  split at e
  · cases e
    refine ⟨by simpa using (by assumption : c.isGrowing = true), ?_, ?_, ?_⟩ <;>
      split <;> rfl
  · cases e

theorem collapseStep_cont_eq {time t a b : ℚ} {colors : Colors}
    {c c1 : CellData} {v v1 : CellView}
    (e : collapseStep time t a b colors c v = StageRes.cont c1 v1) :
    c1 = c ∧ v1 = v ∧ c.isCollapsing = false := by
  unfold collapseStep at e
  simp only [] at e
  split at e
  · split at e <;> split at e <;> first
      | cases e
      | (split at e <;> cases e)
  · cases e
    exact ⟨rfl, rfl, by simpa using (by assumption : ¬ c.isCollapsing = true)⟩

theorem collapseStep_done_flags {time t a b : ℚ} {colors : Colors}
    {c c' : CellData} {v v' : CellView}
    (e : collapseStep time t a b colors c v = StageRes.done c' v') :
    c.isCollapsing = true ∧ c'.hasSpawned = c.hasSpawned ∧
      c'.isGrowing = c.isGrowing ∧
      ((c'.isCollapsing = false ∧ c'.isHidden = true) ∨
       (c'.isCollapsing = c.isCollapsing ∧ c'.isHidden = c.isHidden)) := by
  unfold collapseStep at e
  simp only [] at e
  split at e
  case isTrue hcol =>
    have hc : c.isCollapsing = true := by simpa using hcol
    split at e
    · split at e
      · cases e; exact ⟨hc, rfl, rfl, Or.inl ⟨rfl, rfl⟩⟩
      · cases e; exact ⟨hc, rfl, rfl, Or.inr ⟨rfl, rfl⟩⟩
    · split at e
      · split at e
        · cases e; exact ⟨hc, rfl, rfl, Or.inr ⟨rfl, rfl⟩⟩
        · cases e; exact ⟨hc, rfl, rfl, Or.inr ⟨rfl, rfl⟩⟩
      · split at e
        · cases e; exact ⟨hc, rfl, rfl, Or.inl ⟨rfl, rfl⟩⟩
        · cases e; exact ⟨hc, rfl, rfl, Or.inr ⟨rfl, rfl⟩⟩
  · cases e

theorem idleStep_flags {hovered : Option Nat} {id : Nat} {cycle : ℚ}
    {highlighted : Bool} {t : ℚ} {colors : Colors} {c : CellData}
    {v : CellView} :
    ((idleStep hovered id cycle highlighted t colors c v).1.hasSpawned
        = c.hasSpawned ∧
      (idleStep hovered id cycle highlighted t colors c v).1.isGrowing
        = c.isGrowing ∧
      (idleStep hovered id cycle highlighted t colors c v).1.isHidden
        = c.isHidden) ∧
    ((idleStep hovered id cycle highlighted t colors c v).1.isCollapsing
        = c.isCollapsing ∨
      (idleStep hovered id cycle highlighted t colors c v).1.isCollapsing
        = true) := by
  unfold idleStep
  simp only []
  split_ifs <;> simp

/-! ## Preservation of the flag invariant -/

theorem flagInv_initCell (x z : Nat) (a b d : ℚ) :
    FlagInv (initCell x z a b d) := by
  simp [FlagInv, initCell]

theorem exactlyOneMode_of_flagInv {c : CellData} (h : FlagInv c) :
    ExactlyOneMode c := by
  obtain ⟨h1, h2, h3, h4⟩ := h
  unfold ExactlyOneMode modeFlags
  cases hS : c.hasSpawned <;> cases hG : c.isGrowing <;>
    cases hC : c.isCollapsing <;> cases hH : c.isHidden <;> simp_all

theorem flagInv_spawn_cont {time : ℚ} {c c1 : CellData} {v v1 : CellView}
    (h : FlagInv c) (e : spawnStep time c v = StageRes.cont c1 v1) :
    FlagInv c1 := by
  rcases spawnStep_cont_cases e with ⟨rfl, -, -⟩ | ⟨hS, -, rfl, -⟩
  · exact h
  · obtain ⟨hG, hC, hH⟩ := h.1 hS
    exact ⟨by simp, by simp [hC], by simp [hH], by simp [hC]⟩

theorem flagInv_hidden_cont {time roll : ℚ} {c c1 : CellData} {v v1 : CellView}
    (h : FlagInv c) (e : hiddenStep time roll c v = StageRes.cont c1 v1) :
    FlagInv c1 := by
  rcases hiddenStep_cont_cases e with ⟨rfl, -, -⟩ | ⟨hH, -, rfl, -⟩
  · exact h
  · have hC : c.isCollapsing = false := by
      cases hc : c.isCollapsing
      · rfl
      · exact absurd ⟨hc, hH⟩ h.2.2.2
    refine ⟨?_, by simp [hC], by simp, by simp [hC]⟩
    intro hS
    simp [(h.1 hS).2.2] at hH

theorem flagInv_grow_done {t : ℚ} {colors : Colors} {c c' : CellData}
    {v v' : CellView} (h : FlagInv c)
    (e : growStep t colors c v = StageRes.done c' v') : FlagInv c' := by
  obtain ⟨hG, hS, hC, hH⟩ := growStep_done_flags e
  have hCc : c.isCollapsing = false := by
    cases hc : c.isCollapsing
    · rfl
    · exact absurd ⟨hG, hc⟩ h.2.1
  have hHc : c.isHidden = false := by
    cases hc : c.isHidden
    · rfl
    · exact absurd ⟨hG, hc⟩ h.2.2.1
  refine ⟨?_, by simp [hC, hCc], by simp [hH, hHc], by simp [hC, hCc]⟩
  intro hS'
  rw [hS] at hS'
  simp [(h.1 hS').1] at hG

theorem flagInv_collapse_done {time t a b : ℚ} {colors : Colors}
    {c c' : CellData} {v v' : CellView} (h : FlagInv c)
    (e : collapseStep time t a b colors c v = StageRes.done c' v') :
    FlagInv c' := by
  obtain ⟨hC, hS, hG, hrest⟩ := collapseStep_done_flags e
  have hGc : c.isGrowing = false := by
    cases hc : c.isGrowing
    · rfl
    · exact absurd ⟨hc, hC⟩ h.2.1
  have hHc : c.isHidden = false := by
    cases hc : c.isHidden
    · rfl
    · exact absurd ⟨hC, hc⟩ h.2.2.2
  rcases hrest with ⟨hC', hH'⟩ | ⟨hC', hH'⟩ <;>
    refine ⟨?_, by simp [hG, hGc], by simp [hG, hGc],
      by simp [hC', hH', hHc]⟩ <;>
  · intro hS'
    rw [hS] at hS'
    simp [(h.1 hS').2.1] at hC

theorem flagInv_idle {hovered : Option Nat} {id : Nat} {cycle : ℚ}
    {highlighted : Bool} {t : ℚ} {colors : Colors} {c : CellData}
    {v : CellView} (hS : c.hasSpawned = true) (hG : c.isGrowing = false)
    (hH : c.isHidden = false) :
    FlagInv (idleStep hovered id cycle highlighted t colors c v).1 := by
  obtain ⟨⟨eS, eG, eH⟩, -⟩ :=
    @idleStep_flags hovered id cycle highlighted t colors c v
  exact ⟨by simp [eS, hS], by simp [eG, hG], by simp [eG, hG],
    by simp [eH, hH]⟩

theorem animateCell_flagInv (time : ℚ) (colors : Colors) (hovered : Option Nat)
    (id : Nat) (s1 s2 s3 : ℚ) (r : Roll) (c : CellData) (v : CellView)
    (h : FlagInv c) :
    FlagInv (animateCell time colors hovered id s1 s2 s3 r c v).1 := by
  unfold animateCell
  cases e1 : spawnStep time c v with
  | done c' v' =>
    simp only []
    obtain ⟨rfl, -⟩ := spawnStep_done_eq e1
    exact h
  | cont c1 v1 =>
    simp only []
    have h1 : FlagInv c1 := flagInv_spawn_cont h e1
    cases e2 : hiddenStep time r.hideRoll c1 v1 with
    | done c' v' =>
      simp only []
      obtain ⟨rfl, -⟩ := hiddenStep_done_eq e2
      exact h1
    | cont c2 v2 =>
      simp only []
      have h2 : FlagInv c2 := flagInv_hidden_cont h1 e2
      cases e3 : growStep (targetScaleOf s1 s2 s3) colors c2 v2 with
      | done c' v' =>
        simp only []
        exact flagInv_grow_done h2 e3
      | cont c3 v3 =>
        simp only []
        obtain ⟨hc32, -, hG3⟩ := growStep_cont_eq e3
        cases e4 : collapseStep time (targetScaleOf s1 s2 s3) r.typeRoll
            r.dirRoll colors c3 v3 with
        | done c' v' =>
          simp only []
          exact flagInv_collapse_done (by rw [hc32]; exact h2) e4
        | cont c4 v4 =>
          simp only []
          obtain ⟨hc43, -, hC4⟩ := collapseStep_cont_eq e4
          have hH2 : c2.isHidden = false := by
            rcases hiddenStep_cont_cases e2 with ⟨h21, -, hh⟩ | ⟨-, -, h21, -⟩
            · rw [h21]; exact hh
            · rw [h21]
          have hS1 : c1.hasSpawned = true := by
            rcases spawnStep_cont_cases e1 with ⟨h10, -, hs⟩ | ⟨-, -, h10, -⟩
            · rw [h10]; exact hs
            · rw [h10]
          have hS2 : c2.hasSpawned = true := by
            rcases hiddenStep_cont_cases e2 with ⟨h21, -, -⟩ | ⟨-, -, h21, -⟩
            · rw [h21]; exact hS1
            · rw [h21]; exact hS1
          rw [hc43, hc32]
          exact flagInv_idle hS2 hG3 hH2

theorem flagInv_hover {c : CellData} (h : FlagInv c) (b : Bool) :
    FlagInv { c with isHovered := b } := by
  obtain ⟨h1, h2, h3, h4⟩ := h
  exact ⟨h1, h2, h3, h4⟩

theorem reachable_flagInv {c : CellData} (h : ReachableCell c) : FlagInv c := by
  induction h with
  | init x z a b d => exact flagInv_initCell x z a b d
  | frame time colors hovered id s1 s2 s3 r c v _ ih =>
    exact animateCell_flagInv time colors hovered id s1 s2 s3 r c v ih
  | hover b c _ ih => exact flagInv_hover ih b

/-! ## The mouse-move handler touches only the hover flag -/

theorem modeFlags_hover (c : CellData) (b : Bool) :
    modeFlags { c with isHovered := b } = modeFlags c := rfl

theorem clearPrevHover_modeFlags (cells : List CellData) (hovered : Option Nat)
    (j : Nat) :
    ((clearPrevHover cells hovered)[j]?).map modeFlags =
      (cells[j]?).map modeFlags := by
  unfold clearPrevHover
  cases hovered with
  | none => rfl
  | some i =>
    simp only []
    cases hci : cells[i]? with
    | none => rfl
    | some c =>
      simp only []
      by_cases hcc : c.isCollapsing
      · rw [if_pos hcc]
      · rw [if_neg hcc]
        by_cases hij : i = j
        · subst hij
          rw [List.getElem?_set_self', hci]
          rfl
        · rw [List.getElem?_set_ne hij]

theorem handleMouseMove_modeFlags (cells : List CellData)
    (hovered hit : Option Nat) (j : Nat) :
    (((handleMouseMove cells hovered hit).1)[j]?).map modeFlags =
      (cells[j]?).map modeFlags := by
  unfold handleMouseMove
  cases hit with
  | none => simpa using clearPrevHover_modeFlags cells hovered j
  | some k =>
    simp only []
    cases hck : (clearPrevHover cells hovered)[k]? with
    | none => simpa using clearPrevHover_modeFlags cells hovered j
    | some c =>
      simp only []
      by_cases hcc : c.isCollapsing
      · rw [if_pos hcc]
        simpa using clearPrevHover_modeFlags cells hovered j
      · rw [if_neg hcc]
        simp only []
        by_cases hkj : k = j
        · subst hkj
          have hcl := clearPrevHover_modeFlags cells hovered k
          rw [hck] at hcl
          rw [List.getElem?_set_self', hck, ← hcl]
          rfl
        · rw [List.getElem?_set_ne hkj]
          exact clearPrevHover_modeFlags cells hovered j

/-! ## Characterizations of one frame of the per-cell update -/

section FrameLemmas

variable (time : ℚ) (colors : Colors) (hovered : Option Nat) (id : Nat)
  (s1 s2 s3 : ℚ) (r : Roll) (c : CellData) (v : CellView)

theorem animateCell_unspawned_wait (hS : c.hasSpawned = false)
    (hT : ¬ time > c.spawnDelay) :
    animateCell time colors hovered id s1 s2 s3 r c v = (c, v) := by
  simp [animateCell, spawnStep, hS, hT]

theorem animateCell_spawn (hS : c.hasSpawned = false) (hH : c.isHidden = false)
    (hT : time > c.spawnDelay) :
    animateCell time colors hovered id s1 s2 s3 r c v =
      ({ c with hasSpawned := true, isGrowing := true, growProgress := 0.03 },
       { v with visible := true
                scaleY := targetScaleOf s1 s2 s3 * 0.03
                posY := 0
                opacity := 0
                fillColor := colors.fill
                wireColor := colors.wireframe }) := by
  have h1 : ¬((0 : ℚ) + 0.03 ≥ 1) := by norm_num
  have h2 : (0 : ℚ) + 0.03 = 0.03 := by norm_num
  simp [animateCell, spawnStep, hiddenStep, growStep, hS, hH, hT, h1, h2]
  norm_num

theorem animateCell_hidden_wait (hS : c.hasSpawned = true)
    (hH : c.isHidden = true)
    (hW : ¬ time - c.hideStartTime > 2 + r.hideRoll * 2) :
    animateCell time colors hovered id s1 s2 s3 r c v = (c, v) := by
  simp [animateCell, spawnStep, hiddenStep, hS, hH, hW]

theorem animateCell_hidden_fire (hS : c.hasSpawned = true)
    (hH : c.isHidden = true)
    (hW : time - c.hideStartTime > 2 + r.hideRoll * 2) :
    animateCell time colors hovered id s1 s2 s3 r c v =
      ({ c with isHidden := false, isGrowing := true, growProgress := 0.03 },
       { v with visible := true
                scaleY := targetScaleOf s1 s2 s3 * 0.03
                posY := 0
                opacity := 0
                fillColor := colors.fill
                wireColor := colors.wireframe }) := by
  have h1 : ¬((0 : ℚ) + 0.03 ≥ 1) := by norm_num
  have h2 : (0 : ℚ) + 0.03 = 0.03 := by norm_num
  simp [animateCell, spawnStep, hiddenStep, growStep, hS, hH, hW, h1, h2]
  norm_num

theorem animateCell_growing_mid (hS : c.hasSpawned = true)
    (hH : c.isHidden = false) (hG : c.isGrowing = true)
    (hP : ¬ c.growProgress + 0.03 ≥ 1) :
    animateCell time colors hovered id s1 s2 s3 r c v =
      ({ c with growProgress := c.growProgress + 0.03 },
       { v with scaleY := targetScaleOf s1 s2 s3 * (c.growProgress + 0.03)
                posY := 0
                opacity := 0
                fillColor := colors.fill
                wireColor := colors.wireframe }) := by
  simp [animateCell, spawnStep, hiddenStep, growStep, hS, hH, hG, hP]

theorem animateCell_growing_end (hS : c.hasSpawned = true)
    (hH : c.isHidden = false) (hG : c.isGrowing = true)
    (hP : c.growProgress + 0.03 ≥ 1) :
    animateCell time colors hovered id s1 s2 s3 r c v =
      ({ c with isGrowing := false, growProgress := 1 },
       { v with scaleY := targetScaleOf s1 s2 s3
                posY := 0
                opacity := 0
                fillColor := colors.fill
                wireColor := colors.wireframe }) := by
  simp [animateCell, spawnStep, hiddenStep, growStep, hS, hH, hG, hP]

theorem animateCell_shrink_mid (hS : c.hasSpawned = true)
    (hH : c.isHidden = false) (hG : c.isGrowing = false)
    (hC : c.isCollapsing = true) (hA : c.animationType = AnimType.collapse)
    (hP : ¬ c.collapseProgress + 0.02 ≥ 1) :
    animateCell time colors hovered id s1 s2 s3 r c v =
      ({ c with collapseProgress := c.collapseProgress + 0.02 },
       { v with scaleY := targetScaleOf s1 s2 s3 *
                  (1 - (c.collapseProgress + 0.02))
                posY := 0
                opacity := 0.3
                fillColor := colors.highlightFill
                wireColor := colors.wireframe }) := by
  simp [animateCell, spawnStep, hiddenStep, growStep, collapseStep,
    hS, hH, hG, hC, hA, hP]

theorem animateCell_shrink_end (hS : c.hasSpawned = true)
    (hH : c.isHidden = false) (hG : c.isGrowing = false)
    (hC : c.isCollapsing = true) (hA : c.animationType = AnimType.collapse)
    (hP : c.collapseProgress + 0.02 ≥ 1) :
    animateCell time colors hovered id s1 s2 s3 r c v =
      ({ c with isCollapsing := false
                collapseProgress := c.collapseProgress + 0.02
                isHidden := true
                hideStartTime := time
                animationType := pickType r.typeRoll
                expandDirection := pickDir r.dirRoll },
       { v with visible := false }) := by
  simp [animateCell, spawnStep, hiddenStep, growStep, collapseStep,
    hS, hH, hG, hC, hA, hP]

theorem animateCell_expand_mid (hS : c.hasSpawned = true)
    (hH : c.isHidden = false) (hG : c.isGrowing = false)
    (hC : c.isCollapsing = true) (hA : c.animationType = AnimType.expand)
    (hR : c.isRetracting = false)
    (hP : ¬ c.collapseProgress + 0.02 ≥ 0.5) :
    animateCell time colors hovered id s1 s2 s3 r c v =
      ({ c with collapseProgress := c.collapseProgress + 0.02 },
       { v with scaleY := expandScaleY (targetScaleOf s1 s2 s3)
                  (c.collapseProgress + 0.02)
                posY := expandPosY c.expandDirection (targetScaleOf s1 s2 s3)
                  (c.collapseProgress + 0.02)
                opacity := 0.3
                fillColor := colors.highlightFill
                wireColor := colors.wireframe }) := by
  simp [animateCell, spawnStep, hiddenStep, growStep, collapseStep,
    hS, hH, hG, hC, hA, hR, hP]

theorem animateCell_expand_switch (hS : c.hasSpawned = true)
    (hH : c.isHidden = false) (hG : c.isGrowing = false)
    (hC : c.isCollapsing = true) (hA : c.animationType = AnimType.expand)
    (hR : c.isRetracting = false)
    (hP : c.collapseProgress + 0.02 ≥ 0.5) :
    animateCell time colors hovered id s1 s2 s3 r c v =
      ({ c with isRetracting := true, collapseProgress := 0 },
       { v with opacity := 0.3
                fillColor := colors.highlightFill
                wireColor := colors.wireframe }) := by
  simp [animateCell, spawnStep, hiddenStep, growStep, collapseStep,
    hS, hH, hG, hC, hA, hR, hP]

theorem animateCell_retract_mid (hS : c.hasSpawned = true)
    (hH : c.isHidden = false) (hG : c.isGrowing = false)
    (hC : c.isCollapsing = true) (hA : c.animationType = AnimType.expand)
    (hR : c.isRetracting = true)
    (hP : ¬ c.collapseProgress + 0.02 ≥ 1) :
    animateCell time colors hovered id s1 s2 s3 r c v =
      ({ c with collapseProgress := c.collapseProgress + 0.02 },
       { v with scaleY := retractScaleY (targetScaleOf s1 s2 s3)
                  (c.collapseProgress + 0.02)
                posY := retractPosY c.expandDirection (targetScaleOf s1 s2 s3)
                  (c.collapseProgress + 0.02)
                opacity := 0.3
                fillColor := colors.highlightFill
                wireColor := colors.wireframe }) := by
  simp [animateCell, spawnStep, hiddenStep, growStep, collapseStep,
    hS, hH, hG, hC, hA, hR, hP]

theorem animateCell_retract_end (hS : c.hasSpawned = true)
    (hH : c.isHidden = false) (hG : c.isGrowing = false)
    (hC : c.isCollapsing = true) (hA : c.animationType = AnimType.expand)
    (hR : c.isRetracting = true) (hP : c.collapseProgress + 0.02 ≥ 1) :
    animateCell time colors hovered id s1 s2 s3 r c v =
      ({ c with isCollapsing := false
                isRetracting := false
                collapseProgress := c.collapseProgress + 0.02
                isHidden := true
                hideStartTime := time
                animationType := pickType r.typeRoll
                expandDirection := pickDir r.dirRoll },
       { v with visible := false }) := by
  simp [animateCell, spawnStep, hiddenStep, growStep, collapseStep,
    hS, hH, hG, hC, hA, hR, hP]

theorem animateCell_idle (hS : c.hasSpawned = true) (hH : c.isHidden = false)
    (hG : c.isGrowing = false) (hC : c.isCollapsing = false) :
    animateCell time colors hovered id s1 s2 s3 r c v =
      idleStep hovered id (highlightCycleOf time c.highlightTime)
        (isHighlightedOf hovered (highlightCycleOf time c.highlightTime))
        (targetScaleOf s1 s2 s3) colors c v := by
  simp [animateCell, spawnStep, hiddenStep, growStep, collapseStep,
    hS, hH, hG, hC]

theorem animateCell_idle_hovered (time : ℚ) (colors : Colors) (id : Nat)
    (s1 s2 s3 : ℚ) (r : Roll) (c : CellData) (v : CellView)
    (hS : c.hasSpawned = true) (hH : c.isHidden = false)
    (hG : c.isGrowing = false) (hC : c.isCollapsing = false) :
    animateCell time colors (some id) id s1 s2 s3 r c v =
      (c, { v with scaleY := targetScaleOf s1 s2 s3
                   posY := 0
                   opacity := 1
                   fillColor := colors.fillHover
                   wireColor := colors.wireframeHover }) := by
  rw [animateCell_idle time colors (some id) id s1 s2 s3 r c v hS hH hG hC]
  simp [idleStep, isHighlightedOf, hC]

theorem animateCell_idle_base (time : ℚ) (colors : Colors) (id : Nat)
    (s1 s2 s3 : ℚ) (r : Roll) (c : CellData) (v : CellView)
    (hS : c.hasSpawned = true) (hH : c.isHidden = false)
    (hG : c.isGrowing = false) (hC : c.isCollapsing = false)
    (hCy : ¬ highlightCycleOf time c.highlightTime < 0.5) :
    animateCell time colors none id s1 s2 s3 r c v =
      (c, { v with scaleY := targetScaleOf s1 s2 s3
                   posY := 0
                   opacity := 0
                   fillColor := colors.fill
                   wireColor := colors.wireframe }) := by
  rw [animateCell_idle time colors none id s1 s2 s3 r c v hS hH hG hC]
  simp [idleStep, isHighlightedOf, hC, hCy]

theorem animateCell_idle_nohover_stays (time : ℚ) (colors : Colors)
    (hovered : Option Nat) (id : Nat) (s1 s2 s3 : ℚ) (r : Roll) (c : CellData)
    (v : CellView) (hS : c.hasSpawned = true) (hH : c.isHidden = false)
    (hG : c.isGrowing = false) (hC : c.isCollapsing = false)
    (hHov : hovered.isNone = false) :
    (animateCell time colors hovered id s1 s2 s3 r c v).1 = c := by
  rw [animateCell_idle time colors hovered id s1 s2 s3 r c v hS hH hG hC]
  simp [idleStep, isHighlightedOf, hHov, hC]
  split_ifs <;> rfl

theorem idleStep_trigger (hovered : Option Nat) (id : Nat) (cycle : ℚ)
    (highlighted : Bool) (t : ℚ) (colors : Colors) (c : CellData)
    (v : CellView) (hC : c.isCollapsing = false) :
    ((idleStep hovered id cycle highlighted t colors c v).1.isCollapsing = true
        ↔ highlighted = true ∧ (0.3 : ℚ) < cycle ∧ cycle < 0.35) ∧
    (highlighted = true ∧ (0.3 : ℚ) < cycle ∧ cycle < 0.35 →
      (idleStep hovered id cycle highlighted t colors c v).1.collapseProgress
        = 0) := by
  unfold idleStep
  simp only []
  by_cases htrig : highlighted = true ∧ (0.3 : ℚ) < cycle ∧ cycle < 0.35
  · simp [htrig]
  · simp [htrig, hC]
    split_ifs <;> simp [hC, htrig]

theorem clearPrevHover_at_collapsing (cells : List CellData)
    (hovered : Option Nat) (j : Nat) (cj : CellData)
    (hj : cells[j]? = some cj) (hcol : cj.isCollapsing = true) :
    (clearPrevHover cells hovered)[j]? = some cj := by
  unfold clearPrevHover
  cases hovered with
  | none => exact hj
  | some i =>
    simp only []
    cases hci : cells[i]? with
    | none => exact hj
    | some ci =>
      simp only []
      by_cases hcc : ci.isCollapsing
      · rw [if_pos hcc]; exact hj
      · rw [if_neg hcc]
        by_cases hij : i = j
        · subst hij
          rw [hci] at hj
          cases hj
          exact absurd hcol hcc
        · rw [List.getElem?_set_ne hij]; exact hj

theorem handleMouseMove_hit_collapsing (cells : List CellData)
    (hovered : Option Nat) (j : Nat) (cj : CellData)
    (hj : cells[j]? = some cj) (hcol : cj.isCollapsing = true) :
    handleMouseMove cells hovered (some j) =
      (clearPrevHover cells hovered, some j) := by
  unfold handleMouseMove
  simp only []
  rw [clearPrevHover_at_collapsing cells hovered j cj hj hcol]
  simp only []
  rw [if_pos hcol]

/-! ## Trajectory of an unspawned cell -/

theorem runCell_unspawned (id : Nat) (orc : Nat → FrameIn) (c0 : CellData)
    (v0 : CellView) (hS : c0.hasSpawned = false) :
    ∀ n : Nat, (n : ℚ) * 0.02 ≤ c0.spawnDelay →
      runCell id orc c0 v0 n = (c0, v0) := by
  intro n
  induction n with
  | zero => intro _; rfl
  | succ n ih =>
    intro h
    have hstep : ((n : ℚ)) * 0.02 ≤ (((n : ℚ)) + 1) * 0.02 := by nlinarith
    have hcast : (((n : Nat) + 1 : Nat) : ℚ) = ((n : ℚ)) + 1 := by push_cast; ring
    have h' : (n : ℚ) * 0.02 ≤ c0.spawnDelay := by
      rw [hcast] at h
      linarith
    have hr := ih h'
    have htime : ¬ ((n : ℚ) + 1) * 0.02 > c0.spawnDelay := by
      rw [hcast] at h
      exact not_lt.mpr h
    simp only [runCell, hr]
    exact animateCell_unspawned_wait _ _ _ _ _ _ _ _ _ _ hS htime

end FrameLemmas

theorem runCell_spawn_first (id : Nat) (orc : Nat → FrameIn) (c0 : CellData)
    (v0 : CellView) (hS : c0.hasSpawned = false) (hH : c0.isHidden = false)
    (n : Nat) (hle : (n : ℚ) * 0.02 ≤ c0.spawnDelay)
    (hgt : ((n : ℚ) + 1) * 0.02 > c0.spawnDelay) :
    runCell id orc c0 v0 (n + 1) =
      ({ c0 with hasSpawned := true, isGrowing := true, growProgress := 0.03 },
       { v0 with visible := true
                 scaleY := targetScaleOf (orc n).s1 (orc n).s2 (orc n).s3 * 0.03
                 posY := 0
                 opacity := 0
                 fillColor := (colorsOrFallback (orc n).cached).fill
                 wireColor := (colorsOrFallback (orc n).cached).wireframe }) := by
  have hr := runCell_unspawned id orc c0 v0 hS n hle
  simp only [runCell, hr]
  exact animateCell_spawn _ _ _ _ _ _ _ _ _ _ hS hH hgt

theorem cellData_eta (c : CellData) (q : ℚ) (h : c.growProgress = q) :
    ({ c with growProgress := q } : CellData) = c := by
  rcases c with ⟨⟩
  simp only [] at h
  rw [h]

theorem runCell_growing_run (id : Nat) (orc : Nat → FrameIn) (c0 : CellData)
    (v0 : CellView) (m : Nat)
    (hS : (runCell id orc c0 v0 m).1.hasSpawned = true)
    (hH : (runCell id orc c0 v0 m).1.isHidden = false)
    (hG : (runCell id orc c0 v0 m).1.isGrowing = true) :
    ∀ k : Nat,
      (runCell id orc c0 v0 m).1.growProgress + (k : ℚ) * 0.03 < 1 →
      (runCell id orc c0 v0 (m + k)).1 =
        { (runCell id orc c0 v0 m).1 with
            growProgress :=
              (runCell id orc c0 v0 m).1.growProgress + (k : ℚ) * 0.03 } := by
  intro k
  induction k with
  | zero =>
    intro _
    exact (cellData_eta _ _ (by push_cast; ring)).symm
  | succ k ih =>
    intro h
    have hkc : (((k : Nat) + 1 : Nat) : ℚ) = (k : ℚ) + 1 := by push_cast; ring
    have hk : (runCell id orc c0 v0 m).1.growProgress + (k : ℚ) * 0.03 < 1 := by
      rw [hkc] at h
      nlinarith
    have hkk := ih hk
    have hlt : ¬ ((runCell id orc c0 v0 m).1.growProgress + (k : ℚ) * 0.03)
        + 0.03 ≥ 1 := by
      rw [hkc] at h
      intro hcon
      nlinarith
    have hmstep : m + (k + 1) = (m + k) + 1 := rfl
    rw [hmstep]
    simp only [runCell, hkk]
    rw [animateCell_growing_mid _ _ _ _ _ _ _ _ _ _
      (by simpa using hS) (by simpa using hH) (by simpa using hG)
      (by simpa using hlt)]
    simp [CellData.mk.injEq]
    ring_nf

/-! ## Mouse-move handler: hover-flag characterizations -/

theorem clearPrevHover_clears (cells : List CellData) (i : Nat)
    (ci : CellData) (hci : cells[i]? = some ci) :
    (ci.isCollapsing = false →
      (clearPrevHover cells (some i))[i]? =
        some { ci with isHovered := false }) ∧
    (ci.isCollapsing = true → clearPrevHover cells (some i) = cells) := by
  constructor
  · intro hcc
    unfold clearPrevHover
    simp only [hci]
    rw [if_neg (by simp [hcc])]
    rw [List.getElem?_set_self', hci]
    rfl
  · intro hcc
    unfold clearPrevHover
    simp only [hci]
    rw [if_pos hcc]

theorem handleMouseMove_sets (cells : List CellData) (hovered : Option Nat)
    (j : Nat) (cj : CellData)
    (hj : (clearPrevHover cells hovered)[j]? = some cj) :
    (cj.isCollapsing = false →
      ((handleMouseMove cells hovered (some j)).1)[j]? =
          some { cj with isHovered := true } ∧
        (handleMouseMove cells hovered (some j)).2 = some j) ∧
    (cj.isCollapsing = true →
      handleMouseMove cells hovered (some j) =
        (clearPrevHover cells hovered, some j)) := by
  constructor
  · intro hcc
    unfold handleMouseMove
    simp only [hj]
    rw [if_neg (by simp [hcc])]
    constructor
    · rw [List.getElem?_set_self', hj]
      rfl
    · rfl
  · intro hcc
    unfold handleMouseMove
    simp only [hj]
    rw [if_pos hcc]

theorem handleMouseMove_none (cells : List CellData) (hovered : Option Nat) :
    (handleMouseMove cells hovered none).2 = none := rfl

/-! ## Teardown lemmas -/

theorem disposeCube_idem (cb : CubeRes) :
    disposeCube (disposeCube cb) = disposeCube cb := by
  rcases cb with ⟨gP, mM, wP, wGP, wMP, gD, mD, wGD, wMD⟩
  cases gP <;> cases mM <;> cases wP <;> cases wGP <;> cases wMP <;>
    simp [disposeCube]

theorem map_disposeCube_idem (l : List CubeRes) :
    (l.map disposeCube).map disposeCube = l.map disposeCube := by
  induction l with
  | nil => rfl
  | cons a t ih => simp [disposeCube_idem, ih]

theorem ngOnDestroy_neverSetUp : ngOnDestroy neverSetUp = neverSetUp := rfl

theorem ngOnDestroy_idem (s : HeroLifecycle) :
    ngOnDestroy (ngOnDestroy s) = ngOnDestroy s := by
  rcases s with ⟨aid, pf, hrr, hrm, rr, mr, rp, rd, cubes, ar⟩
  cases aid <;> cases hrr <;> cases hrm <;> cases rr <;> cases mr <;>
    cases rp <;> simp [ngOnDestroy, map_disposeCube_idem] <;>
    exact fun a _ => disposeCube_idem a

/-! ## Claim theorems -/

/-- A fixed oracle stream used to instantiate frame inputs at concrete
witnesses. -/
def defaultFrames : Nat → FrameIn := fun _ =>
  { cached := none
    hovered := none
    s1 := 0
    s2 := 0
    s3 := 0
    roll := { hideRoll := 0, typeRoll := 0, dirRoll := 0 } }

/-- C1 (counterexample): the hard-coded fallback palette that `animate`
uses when no palette has been computed is NOT the palette
`updateThemeColors` produces for theme = light — every one of its five
entries differs from the light-mode mapping. -/
theorem c1_fallback_not_light :
    colorsOrFallback none ≠ themeColors Theme.light := by decide

/-- C1 (amended): if the per-frame update runs before any palette has been
computed by the theme subscription, it uses the hard-coded fallback
palette, which equals the DARK-mode mapping (the five colors
`updateThemeColors` produces for theme = dark). -/
theorem c1_fallback_is_dark :
    colorsOrFallback none = themeColors Theme.dark := by decide

/-- C2: every reachable cell state satisfies exactly one of the five modes
(not-yet-spawned, growing, collapsing, hidden, idle) as derived from the
flags `hasSpawned`/`isGrowing`/`isHidden`/`isCollapsing`; and the
pointer-move handler never changes any cell's derived mode, so mode
transitions happen only inside the per-frame update. -/
theorem c2_modes_exclusive :
    (∀ c : CellData, ReachableCell c → ExactlyOneMode c) ∧
    (∀ (cells : List CellData) (hovered hit : Option Nat) (j : Nat),
      (((handleMouseMove cells hovered hit).1)[j]?).map modeFlags =
        (cells[j]?).map modeFlags) :=
  ⟨fun _ h => exactlyOneMode_of_flagInv (reachable_flagInv h),
   handleMouseMove_modeFlags⟩

/-- C2 witness: the invariant and the handler-preservation at a concrete
freshly created cell. -/
theorem c2_modes_exclusive_witness :
    ExactlyOneMode (initCell 0 0 0 0 0) ∧
    (((handleMouseMove [initCell 0 0 0 0 0] none none).1)[0]?).map modeFlags =
      (([initCell 0 0 0 0 0])[0]?).map modeFlags :=
  ⟨c2_modes_exclusive.1 (initCell 0 0 0 0 0) (ReachableCell.init 0 0 0 0 0),
   c2_modes_exclusive.2 [initCell 0 0 0 0 0] none none 0⟩

/-- C9: teardown is idempotent-safe.  Calling `ngOnDestroy` on a component
that was never set up changes nothing (every release step is guarded by a
presence check), and calling it twice in succession yields the same state
as calling it once — in particular the count of listener removals that
actually found a registered listener does not grow on the second call. -/
theorem c9_teardown_idempotent :
    ngOnDestroy neverSetUp = neverSetUp ∧
    (∀ s : HeroLifecycle, ngOnDestroy (ngOnDestroy s) = ngOnDestroy s) ∧
    (∀ s : HeroLifecycle,
      (ngOnDestroy (ngOnDestroy s)).actualRemovals =
        (ngOnDestroy s).actualRemovals) :=
  ⟨ngOnDestroy_neverSetUp, ngOnDestroy_idem,
   fun s => congrArg HeroLifecycle.actualRemovals (ngOnDestroy_idem s)⟩

/-- C10: when the pointer-move ray's nearest hit is a collapsing cell, the
`hoveredCube` reference is still set to that cell while its hover flag is
left unchanged (so unset if it was unset); any non-empty hovered reference
makes `isHighlighted` false for every cell, and an idle cell is then left
entirely unchanged by the per-frame update — the periodic highlight /
collapse-trigger cycle is suppressed grid-wide. -/
theorem c10_collapsing_hit_suppresses_highlight :
    (∀ (cells : List CellData) (hovered : Option Nat) (j : Nat)
        (cj : CellData), cells[j]? = some cj → cj.isCollapsing = true →
      (handleMouseMove cells hovered (some j)).2 = some j ∧
      ((handleMouseMove cells hovered (some j)).1)[j]? = some cj) ∧
    (∀ (k : Nat) (cycle : ℚ), isHighlightedOf (some k) cycle = false) ∧
    (∀ (time : ℚ) (colors : Colors) (hovered : Option Nat) (id : Nat)
        (s1 s2 s3 : ℚ) (r : Roll) (c : CellData) (v : CellView),
      c.hasSpawned = true → c.isHidden = false → c.isGrowing = false →
      c.isCollapsing = false → hovered.isNone = false →
      (animateCell time colors hovered id s1 s2 s3 r c v).1 = c) := by
  refine ⟨?_, ?_, ?_⟩
  · intro cells hovered j cj hj hcol
    rw [handleMouseMove_hit_collapsing cells hovered j cj hj hcol]
    exact ⟨rfl, clearPrevHover_at_collapsing cells hovered j cj hj hcol⟩
  · intro k cycle
    simp [isHighlightedOf]
  · intro time colors hovered id s1 s2 s3 r c v hS hH hG hC hHov
    exact animateCell_idle_nohover_stays time colors hovered id s1 s2 s3 r c v
      hS hH hG hC hHov

/-- C10 witness: a concrete collapsing cell is hit; the reference is set,
the flag stays unset, and a concrete idle cell is untouched by the next
update while the reference is non-empty. -/
theorem c10_witness :
    (handleMouseMove
        [{ initCell 0 0 0 0 0 with hasSpawned := true, isCollapsing := true }]
        none (some 0)).2 = some 0 ∧
    isHighlightedOf (some 0) (0.1 : ℚ) = false ∧
    (animateCell 1 fallbackColors (some 5) 0 0 0 0 ⟨0, 0, 0⟩
      { initCell 0 0 0 0 0 with hasSpawned := true } initView).1 =
      { initCell 0 0 0 0 0 with hasSpawned := true } :=
  ⟨(c10_collapsing_hit_suppresses_highlight.1
      [{ initCell 0 0 0 0 0 with hasSpawned := true, isCollapsing := true }]
      none 0 { initCell 0 0 0 0 0 with hasSpawned := true, isCollapsing := true }
      rfl rfl).1,
   c10_collapsing_hit_suppresses_highlight.2.1 0 0.1,
   c10_collapsing_hit_suppresses_highlight.2.2 1 fallbackColors (some 5) 0
     0 0 0 ⟨0, 0, 0⟩ { initCell 0 0 0 0 0 with hasSpawned := true } initView
     rfl rfl rfl rfl rfl⟩

/-- C3 (counterexample): with spawn roll 1/150 the spawn delay is exactly
0.02, the first frame's clock time 0.02 satisfies time ≥ delay, yet the
cell is still invisible after that frame (the code demands strict
inequality); it only becomes visible on the second frame. -/
theorem c3_counterexample :
    (initCell 0 0 (1/150) 0 0).spawnDelay = 0.02 ∧
    (1 : ℚ) * 0.02 ≥ (initCell 0 0 (1/150) 0 0).spawnDelay ∧
    (runCell 0 defaultFrames (initCell 0 0 (1/150) 0 0) initView 1).2.visible
      = false ∧
    (runCell 0 defaultFrames (initCell 0 0 (1/150) 0 0) initView 2).2.visible
      = true := by
  refine ⟨by norm_num [initCell], by norm_num [initCell], ?_, ?_⟩
  · rw [runCell_unspawned 0 defaultFrames _ initView rfl 1
      (by norm_num [initCell])]
    rfl
  · rw [show (2 : Nat) = 1 + 1 from rfl,
      runCell_spawn_first 0 defaultFrames _ initView rfl rfl 1
        (by norm_num [initCell]) (by norm_num [initCell])]

/-- C3 (amended): every cell's spawnDelay lies in [0,3); the cell stays
invisible at every frame whose clock time is at most the delay (so at
every simulated time strictly less than it, and also at time = delay);
the spawn block fires — entering growing mode with progress 0 and making
the cell visible — exactly when the clock time strictly exceeds the
delay; and at the first frame whose time strictly exceeds the delay the
cell is visible and growing. -/
theorem c3_spawn (x z : Nat) (spawnRoll typeRoll dirRoll : ℚ)
    (h0 : 0 ≤ spawnRoll) (h1 : spawnRoll < 1) (id : Nat)
    (orc : Nat → FrameIn) :
    (0 ≤ (initCell x z spawnRoll typeRoll dirRoll).spawnDelay ∧
      (initCell x z spawnRoll typeRoll dirRoll).spawnDelay < 3) ∧
    (∀ n : Nat,
      (n : ℚ) * 0.02 ≤ (initCell x z spawnRoll typeRoll dirRoll).spawnDelay →
      (runCell id orc (initCell x z spawnRoll typeRoll dirRoll) initView
        n).2.visible = false) ∧
    (∀ (time : ℚ) (c : CellData) (v : CellView), c.hasSpawned = false →
      (time > c.spawnDelay →
        spawnStep time c v = StageRes.cont
          { c with hasSpawned := true, isGrowing := true, growProgress := 0 }
          { v with visible := true }) ∧
      (¬ time > c.spawnDelay → spawnStep time c v = StageRes.done c v)) ∧
    (∀ n : Nat,
      (n : ℚ) * 0.02 ≤ (initCell x z spawnRoll typeRoll dirRoll).spawnDelay →
      ((n : ℚ) + 1) * 0.02 >
        (initCell x z spawnRoll typeRoll dirRoll).spawnDelay →
      (runCell id orc (initCell x z spawnRoll typeRoll dirRoll) initView
          (n + 1)).2.visible = true ∧
        (runCell id orc (initCell x z spawnRoll typeRoll dirRoll) initView
          (n + 1)).1.isGrowing = true) := by
  refine ⟨⟨?_, ?_⟩, ?_, ?_, ?_⟩
  · show 0 ≤ spawnRoll * 3
    nlinarith
  · show spawnRoll * 3 < 3
    nlinarith
  · intro n hn
    rw [runCell_unspawned id orc _ initView rfl n hn]
    rfl
  · intro time c v hS
    constructor
    · intro hT
      simp [spawnStep, hS, hT]
    · intro hT
      simp [spawnStep, hS, hT]
  · intro n hn hgt
    rw [runCell_spawn_first id orc _ initView rfl rfl n hn hgt]
    exact ⟨rfl, rfl⟩

/-- C3 witness: the amended claim applied at spawn roll 0: delay 0 lies in
[0, 3), and the cell is visible and growing after the first frame. -/
theorem c3_spawn_witness :
    ((0 : ℚ) ≤ 0 ∧ (0 : ℚ) < 1) ∧
    (0 ≤ (initCell 0 0 0 0 0).spawnDelay ∧
      (initCell 0 0 0 0 0).spawnDelay < 3) ∧
    (runCell 0 defaultFrames (initCell 0 0 0 0 0) initView 1).2.visible
      = true :=
  ⟨⟨le_refl 0, by norm_num⟩,
   (c3_spawn 0 0 0 0 0 (le_refl 0) (by norm_num) 0 defaultFrames).1,
   ((c3_spawn 0 0 0 0 0 (le_refl 0) (by norm_num) 0
      defaultFrames).2.2.2 0 (by norm_num [initCell])
      (by norm_num [initCell])).1⟩

/-- C4: while a cell is growing, its progress advances by exactly 0.03 per
frame; while the incremented progress is below 1, the cell stays growing
with scale.y = that frame's target scale times the progress, y-offset 0,
fill opacity 0, base fill and base wireframe colors; once the incremented
progress reaches or exceeds 1 it is clamped to 1, growing mode ends and
(for a non-collapsing cell) the resulting mode is idle, with the same
visual rule applied at clamped progress 1; and over a run of frames a
growing episode starting at progress 0 reaches progress k·0.03 after k
frames while k·0.03 < 1. -/
theorem c4_growing :
    (∀ (time : ℚ) (colors : Colors) (hovered : Option Nat) (id : Nat)
        (s1 s2 s3 : ℚ) (r : Roll) (c : CellData) (v : CellView),
      c.hasSpawned = true → c.isHidden = false → c.isGrowing = true →
      (¬ c.growProgress + 0.03 ≥ 1 →
        animateCell time colors hovered id s1 s2 s3 r c v =
          ({ c with growProgress := c.growProgress + 0.03 },
           { v with scaleY := targetScaleOf s1 s2 s3 * (c.growProgress + 0.03)
                    posY := 0
                    opacity := 0
                    fillColor := colors.fill
                    wireColor := colors.wireframe })) ∧
      (c.growProgress + 0.03 ≥ 1 →
        animateCell time colors hovered id s1 s2 s3 r c v =
          ({ c with isGrowing := false, growProgress := 1 },
           { v with scaleY := targetScaleOf s1 s2 s3
                    posY := 0
                    opacity := 0
                    fillColor := colors.fill
                    wireColor := colors.wireframe }) ∧
        (c.isCollapsing = false →
          modeFlags (animateCell time colors hovered id s1 s2 s3 r c v).1 =
            [false, false, false, false, true]))) ∧
    (∀ (id : Nat) (orc : Nat → FrameIn) (c0 : CellData) (v0 : CellView)
        (m : Nat),
      (runCell id orc c0 v0 m).1.hasSpawned = true →
      (runCell id orc c0 v0 m).1.isHidden = false →
      (runCell id orc c0 v0 m).1.isGrowing = true →
      ∀ k : Nat,
        (runCell id orc c0 v0 m).1.growProgress + (k : ℚ) * 0.03 < 1 →
        (runCell id orc c0 v0 (m + k)).1 =
          { (runCell id orc c0 v0 m).1 with
              growProgress :=
                (runCell id orc c0 v0 m).1.growProgress + (k : ℚ) * 0.03 }) := by
  constructor
  · intro time colors hovered id s1 s2 s3 r c v hS hH hG
    constructor
    · intro hP
      exact animateCell_growing_mid time colors hovered id s1 s2 s3 r c v
        hS hH hG hP
    · intro hP
      have hend := animateCell_growing_end time colors hovered id s1 s2 s3 r
        c v hS hH hG hP
      refine ⟨hend, ?_⟩
      intro hC
      rw [hend]
      simp [modeFlags, hS, hH, hC]
  · intro id orc c0 v0 m hS hH hG
    exact runCell_growing_run id orc c0 v0 m hS hH hG

/-- C4 witness: one growing frame of a concrete cell advances progress
from 0 to 0.03, and the trajectory part applied with k = 0. -/
theorem c4_growing_witness :
    (animateCell 1 fallbackColors none 0 0 0 0 ⟨0, 0, 0⟩
        { initCell 0 0 0 0 0 with hasSpawned := true, isGrowing := true }
        initView).1.growProgress = 0 + 0.03 ∧
    (runCell 0 defaultFrames (initCell 0 0 0 0 0) initView (1 + 0)).1 =
      { (runCell 0 defaultFrames (initCell 0 0 0 0 0) initView 1).1 with
          growProgress :=
            (runCell 0 defaultFrames (initCell 0 0 0 0 0) initView
              1).1.growProgress + ((0 : Nat) : ℚ) * 0.03 } := by
  have h1 := runCell_spawn_first 0 defaultFrames (initCell 0 0 0 0 0) initView
    rfl rfl 0 (by norm_num [initCell]) (by norm_num [initCell])
  constructor
  · have h := (c4_growing.1 1 fallbackColors none 0 0 0 0 ⟨0, 0, 0⟩
      { initCell 0 0 0 0 0 with hasSpawned := true, isGrowing := true }
      initView rfl rfl rfl).1 (by norm_num [initCell])
    rw [h]
    rfl
  · exact c4_growing.2 0 defaultFrames (initCell 0 0 0 0 0) initView 1
      (by rw [show (1 : Nat) = 0 + 1 from rfl, h1])
      (by rw [show (1 : Nat) = 0 + 1 from rfl, h1]; rfl)
      (by rw [show (1 : Nat) = 0 + 1 from rfl, h1]) 0
      (by rw [show (1 : Nat) = 0 + 1 from rfl, h1]; norm_num [initCell])

/-- C5: in the shrinking collapse sub-mode progress advances by exactly
0.02 per frame; once the incremented progress reaches or exceeds 1 the
cell becomes hidden with `hideStartTime` equal to that frame's clock time,
is made invisible, and its `animationType`/`expandDirection` are
re-randomized.  A hidden cell's per-frame reappearance threshold
`2 + random·2` always lies in [2,4); the cell stays untouched (invisible)
whenever the elapsed time does not exceed that threshold — in particular
whenever at most 2 time-units have elapsed — and when the elapsed time
exceeds the threshold the hidden block re-enters growing mode with
progress 0 and makes the cell visible. -/
theorem c5_shrink_and_hidden :
    (∀ (time : ℚ) (colors : Colors) (hovered : Option Nat) (id : Nat)
        (s1 s2 s3 : ℚ) (r : Roll) (c : CellData) (v : CellView),
      c.hasSpawned = true → c.isHidden = false → c.isGrowing = false →
      c.isCollapsing = true → c.animationType = AnimType.collapse →
      (¬ c.collapseProgress + 0.02 ≥ 1 →
        animateCell time colors hovered id s1 s2 s3 r c v =
          ({ c with collapseProgress := c.collapseProgress + 0.02 },
           { v with scaleY := targetScaleOf s1 s2 s3 *
                      (1 - (c.collapseProgress + 0.02))
                    posY := 0
                    opacity := 0.3
                    fillColor := colors.highlightFill
                    wireColor := colors.wireframe })) ∧
      (c.collapseProgress + 0.02 ≥ 1 →
        animateCell time colors hovered id s1 s2 s3 r c v =
          ({ c with isCollapsing := false
                    collapseProgress := c.collapseProgress + 0.02
                    isHidden := true
                    hideStartTime := time
                    animationType := pickType r.typeRoll
                    expandDirection := pickDir r.dirRoll },
           { v with visible := false }))) ∧
    (∀ r : Roll, Roll.Valid r →
      2 ≤ 2 + r.hideRoll * 2 ∧ 2 + r.hideRoll * 2 < 4) ∧
    (∀ (time : ℚ) (colors : Colors) (hovered : Option Nat) (id : Nat)
        (s1 s2 s3 : ℚ) (r : Roll) (c : CellData) (v : CellView),
      c.hasSpawned = true → c.isHidden = true →
      (Roll.Valid r → time - c.hideStartTime ≤ 2 →
        animateCell time colors hovered id s1 s2 s3 r c v = (c, v)) ∧
      (¬ time - c.hideStartTime > 2 + r.hideRoll * 2 →
        animateCell time colors hovered id s1 s2 s3 r c v = (c, v)) ∧
      (time - c.hideStartTime > 2 + r.hideRoll * 2 →
        hiddenStep time r.hideRoll c v = StageRes.cont
          { c with isHidden := false, isGrowing := true, growProgress := 0 }
          { v with visible := true } ∧
        animateCell time colors hovered id s1 s2 s3 r c v =
          ({ c with isHidden := false
                    isGrowing := true
                    growProgress := 0.03 },
           { v with visible := true
                    scaleY := targetScaleOf s1 s2 s3 * 0.03
                    posY := 0
                    opacity := 0
                    fillColor := colors.fill
                    wireColor := colors.wireframe }))) := by
  refine ⟨?_, ?_, ?_⟩
  · intro time colors hovered id s1 s2 s3 r c v hS hH hG hC hA
    exact ⟨animateCell_shrink_mid time colors hovered id s1 s2 s3 r c v
        hS hH hG hC hA,
      animateCell_shrink_end time colors hovered id s1 s2 s3 r c v
        hS hH hG hC hA⟩
  · intro r hr
    obtain ⟨h0, h1, -⟩ := hr
    constructor
    · nlinarith
    · nlinarith
  · intro time colors hovered id s1 s2 s3 r c v hS hH
    refine ⟨?_, ?_, ?_⟩
    · intro hr hel
      obtain ⟨h0, -⟩ := hr
      exact animateCell_hidden_wait time colors hovered id s1 s2 s3 r c v
        hS hH (by nlinarith)
    · intro hW
      exact animateCell_hidden_wait time colors hovered id s1 s2 s3 r c v
        hS hH hW
    · intro hW
      constructor
      · simp [hiddenStep, hH, hW]
      · exact animateCell_hidden_fire time colors hovered id s1 s2 s3 r c v
          hS hH hW

/-- C5 witness: a concrete shrinking cell at progress 0 advances to 0.02;
the threshold bound at roll 0; a concrete hidden cell with 1 time-unit
elapsed stays put, and with 5 time-units elapsed it re-enters growing. -/
theorem c5_witness :
    (animateCell 1 fallbackColors none 0 0 0 0 ⟨0, 0, 0⟩
        { initCell 0 0 0 0.9 0 with hasSpawned := true, isCollapsing := true }
        initView).1.collapseProgress = 0 + 0.02 ∧
    (2 ≤ 2 + (0 : ℚ) * 2 ∧ 2 + (0 : ℚ) * 2 < 4) ∧
    (animateCell 1 fallbackColors none 0 0 0 0 ⟨0, 0, 0⟩
        { initCell 0 0 0 0 0 with hasSpawned := true, isHidden := true }
        initView).1.isHidden = true ∧
    (animateCell 5 fallbackColors none 0 0 0 0 ⟨0, 0, 0⟩
        { initCell 0 0 0 0 0 with hasSpawned := true, isHidden := true }
        initView).1.isGrowing = true := by
  refine ⟨?_, ?_, ?_, ?_⟩
  · have h := ((c5_shrink_and_hidden.1 1 fallbackColors none 0 0 0 0 ⟨0, 0, 0⟩
      { initCell 0 0 0 0.9 0 with hasSpawned := true, isCollapsing := true }
      initView rfl rfl rfl rfl (by norm_num [initCell, pickType])).1
      (by norm_num [initCell]))
    rw [h]
    rfl
  · exact c5_shrink_and_hidden.2.1 ⟨0, 0, 0⟩
      ⟨le_refl 0, by norm_num, le_refl 0, by norm_num, le_refl 0, by norm_num⟩
  · have h := ((c5_shrink_and_hidden.2.2 1 fallbackColors none 0 0 0 0
      ⟨0, 0, 0⟩ { initCell 0 0 0 0 0 with hasSpawned := true, isHidden := true }
      initView rfl rfl).1
      ⟨le_refl 0, by norm_num, le_refl 0, by norm_num, le_refl 0, by norm_num⟩
      (by norm_num [initCell]))
    rw [h]
  · have h := (((c5_shrink_and_hidden.2.2 5 fallbackColors none 0 0 0 0
      ⟨0, 0, 0⟩ { initCell 0 0 0 0 0 with hasSpawned := true, isHidden := true }
      initView rfl rfl).2.2 (by norm_num [initCell]))).2
    rw [h]

/-- C6: in the expand-then-retract sub-mode, the first-phase scale formula
is strictly increasing in progress over [0, 1/2], going from the target
scale to target+5; the retracting formula is strictly decreasing in
progress over [0, 1] (for a positive target — and the code's target scale
is always positive, as the last conjunct shows for sine values in
[-1, 1]), going from target+5 to 0; the y-offset is positive for
direction up and negative for direction down throughout both phases
(given positive progress, and a positive target for the retract phase);
and the per-frame update writes exactly these formulas to scale.y and the
y-offset in the corresponding sub-mode. -/
theorem c6_expand_retract :
    (∀ t : ℚ, StrictMonoOn (expandScaleY t) (Set.Icc (0 : ℚ) (1/2))) ∧
    (∀ t : ℚ, expandScaleY t 0 = t ∧ expandScaleY t (1/2) = t + 5) ∧
    (∀ t : ℚ, 0 < t → StrictAntiOn (retractScaleY t) (Set.Icc (0 : ℚ) 1)) ∧
    (∀ t : ℚ, retractScaleY t 0 = t + 5 ∧ retractScaleY t 1 = 0) ∧
    (∀ t p : ℚ, 0 < p →
      0 < expandPosY Dir.up t p ∧ expandPosY Dir.down t p < 0) ∧
    (∀ t p : ℚ, 0 < t → 0 ≤ p →
      0 < retractPosY Dir.up t p ∧ retractPosY Dir.down t p < 0) ∧
    (∀ (time : ℚ) (colors : Colors) (hovered : Option Nat) (id : Nat)
        (s1 s2 s3 : ℚ) (r : Roll) (c : CellData) (v : CellView),
      c.hasSpawned = true → c.isHidden = false → c.isGrowing = false →
      c.isCollapsing = true → c.animationType = AnimType.expand →
      c.isRetracting = false → ¬ c.collapseProgress + 0.02 ≥ 0.5 →
      (animateCell time colors hovered id s1 s2 s3 r c v).2.scaleY =
          expandScaleY (targetScaleOf s1 s2 s3) (c.collapseProgress + 0.02) ∧
        (animateCell time colors hovered id s1 s2 s3 r c v).2.posY =
          expandPosY c.expandDirection (targetScaleOf s1 s2 s3)
            (c.collapseProgress + 0.02)) ∧
    (∀ (time : ℚ) (colors : Colors) (hovered : Option Nat) (id : Nat)
        (s1 s2 s3 : ℚ) (r : Roll) (c : CellData) (v : CellView),
      c.hasSpawned = true → c.isHidden = false → c.isGrowing = false →
      c.isCollapsing = true → c.animationType = AnimType.expand →
      c.isRetracting = true → ¬ c.collapseProgress + 0.02 ≥ 1 →
      (animateCell time colors hovered id s1 s2 s3 r c v).2.scaleY =
          retractScaleY (targetScaleOf s1 s2 s3) (c.collapseProgress + 0.02) ∧
        (animateCell time colors hovered id s1 s2 s3 r c v).2.posY =
          retractPosY c.expandDirection (targetScaleOf s1 s2 s3)
            (c.collapseProgress + 0.02)) ∧
    (∀ s1 s2 s3 : ℚ, -1 ≤ s1 → s1 ≤ 1 → -1 ≤ s2 → s2 ≤ 1 → -1 ≤ s3 →
      s3 ≤ 1 → 0 < targetScaleOf s1 s2 s3) := by
  refine ⟨?_, ?_, ?_, ?_, ?_, ?_, ?_, ?_, ?_⟩
  · intro t a _ b _ hab
    simp only [expandScaleY]
    nlinarith
  · intro t
    constructor
    · simp [expandScaleY]
    · norm_num [expandScaleY]
  · intro t ht a _ b _ hab
    simp only [retractScaleY]
    nlinarith [mul_pos (show (0 : ℚ) < t + 5 by linarith)
      (show (0 : ℚ) < b - a by linarith)]
  · intro t
    constructor
    · simp [retractScaleY]
    · simp [retractScaleY]
  · intro t p hp
    constructor
    · simp only [expandPosY, expandScaleY]
      split_ifs <;> first | nlinarith | simp_all
    · simp only [expandPosY, expandScaleY]
      split_ifs <;> first | nlinarith | simp_all
  · intro t p ht hp
    have h1 : (0 : ℚ) ≤ (t + 5) * p := mul_nonneg (by linarith) hp
    constructor
    · simp only [retractPosY]
      split_ifs <;> first | nlinarith | simp_all
    · simp only [retractPosY]
      split_ifs <;> first | nlinarith | simp_all
  · intro time colors hovered id s1 s2 s3 r c v hS hH hG hC hA hR hP
    rw [animateCell_expand_mid time colors hovered id s1 s2 s3 r c v
      hS hH hG hC hA hR hP]
    exact ⟨rfl, rfl⟩
  · intro time colors hovered id s1 s2 s3 r c v hS hH hG hC hA hR hP
    rw [animateCell_retract_mid time colors hovered id s1 s2 s3 r c v
      hS hH hG hC hA hR hP]
    exact ⟨rfl, rfl⟩
  · intro s1 s2 s3 h1 h2 h3 h4 h5 h6
    simp only [targetScaleOf]
    nlinarith

/-- C6 witness: the monotonicity, endpoint and sign parts applied at
concrete target 1 and concrete progress values. -/
theorem c6_witness :
    expandScaleY 1 0 < expandScaleY 1 (1/2) ∧
    expandScaleY 1 0 = 1 ∧ expandScaleY 1 (1/2) = 1 + 5 ∧
    retractScaleY 1 1 < retractScaleY 1 0 ∧
    0 < expandPosY Dir.up 1 (1/4) ∧ expandPosY Dir.down 1 (1/4) < 0 ∧
    0 < retractPosY Dir.up 1 (1/2) ∧ retractPosY Dir.down 1 (1/2) < 0 :=
  ⟨c6_expand_retract.1 1 (by norm_num) (by norm_num) (by norm_num),
   (c6_expand_retract.2.1 1).1,
   (c6_expand_retract.2.1 1).2,
   c6_expand_retract.2.2.1 1 (by norm_num) (by norm_num) (by norm_num)
     (by norm_num),
   (c6_expand_retract.2.2.2.2.1 1 (1/4) (by norm_num)).1,
   (c6_expand_retract.2.2.2.2.1 1 (1/4) (by norm_num)).2,
   (c6_expand_retract.2.2.2.2.2.1 1 (1/2) (by norm_num) (by norm_num)).1,
   (c6_expand_retract.2.2.2.2.2.1 1 (1/2) (by norm_num) (by norm_num)).2⟩

/-- C7: the per-cell highlight cycle is `(time + highlightTime) mod 18`
(JS `%`); a cell counts as highlighted exactly when the hovered-cube
reference is empty and the cycle value is below 0.5; and an idle cell
(spawned, not growing, not hidden, not collapsing) transitions into
collapsing mode — with progress reset to 0 — exactly when it is
highlighted and its cycle value lies strictly between 0.3 and 0.35. -/
theorem c7_highlight_trigger :
    (∀ time ht : ℚ, highlightCycleOf time ht = jsMod (time + ht) 18) ∧
    (∀ (hovered : Option Nat) (cycle : ℚ),
      isHighlightedOf hovered cycle = true ↔ hovered = none ∧ cycle < 0.5) ∧
    (∀ (time : ℚ) (colors : Colors) (hovered : Option Nat) (id : Nat)
        (s1 s2 s3 : ℚ) (r : Roll) (c : CellData) (v : CellView),
      c.hasSpawned = true → c.isHidden = false → c.isGrowing = false →
      c.isCollapsing = false →
      ((animateCell time colors hovered id s1 s2 s3 r c v).1.isCollapsing
          = true ↔
        isHighlightedOf hovered (highlightCycleOf time c.highlightTime)
            = true ∧
          0.3 < highlightCycleOf time c.highlightTime ∧
          highlightCycleOf time c.highlightTime < 0.35) ∧
      (isHighlightedOf hovered (highlightCycleOf time c.highlightTime)
            = true ∧
          0.3 < highlightCycleOf time c.highlightTime ∧
          highlightCycleOf time c.highlightTime < 0.35 →
        (animateCell time colors hovered id s1 s2 s3 r c v).1.collapseProgress
          = 0)) := by
  refine ⟨fun _ _ => rfl, ?_, ?_⟩
  · intro hovered cycle
    simp [isHighlightedOf, Option.isNone_iff_eq_none]
  · intro time colors hovered id s1 s2 s3 r c v hS hH hG hC
    rw [animateCell_idle time colors hovered id s1 s2 s3 r c v hS hH hG hC]
    exact idleStep_trigger hovered id _ _ _ colors c v hC

/-- C7 witness: at clock time 0.32 a concrete idle cell with phase offset
0 has cycle 0.32, is highlighted with no cell hovered, and the update
sends it into collapsing mode. -/
theorem c7_witness :
    (animateCell 0.32 fallbackColors none 0 0 0 0 ⟨0, 0, 0⟩
        { initCell 0 0 0 0 0 with hasSpawned := true }
        initView).1.isCollapsing = true := by
  have hht : ({ initCell 0 0 0 0 0 with hasSpawned := true }
      : CellData).highlightTime = 0 := by
    norm_num [initCell]
  have hcy : highlightCycleOf (0.32 : ℚ) 0 = 0.32 := by
    have h2 : ⌊(0.32 : ℚ) / 18⌋ = 0 := by
      rw [Int.floor_eq_zero_iff, Set.mem_Ico]
      constructor <;> norm_num
    unfold highlightCycleOf jsMod
    rw [if_pos (by norm_num : (0 : ℚ) ≤ ((0.32 : ℚ) + 0) / 18)]
    rw [show ((0.32 : ℚ) + 0) / 18 = 0.32 / 18 by norm_num, h2]
    norm_num
  refine ((c7_highlight_trigger.2.2 0.32 fallbackColors none 0 0 0 0
    ⟨0, 0, 0⟩ { initCell 0 0 0 0 0 with hasSpawned := true } initView
    rfl rfl rfl rfl).1).mpr ?_
  rw [hht, hcy]
  refine ⟨?_, by norm_num, by norm_num⟩
  simp [isHighlightedOf]
  norm_num

/-- C8 (counterexample): a raycast hit on a growing, non-collapsing cell
sets its hover flag and the hovered reference, yet the next per-frame
update leaves its fill opacity at 0 rather than 1 — the growing branch
runs first and returns before the hover coloring. -/
theorem c8_counterexample :
    ({ initCell 0 0 0 0 0 with hasSpawned := true, isGrowing := true }
      : CellData).isCollapsing = false ∧
    (handleMouseMove
        [{ initCell 0 0 0 0 0 with hasSpawned := true, isGrowing := true }]
        none (some 0)).2 = some 0 ∧
    ((handleMouseMove
        [{ initCell 0 0 0 0 0 with hasSpawned := true, isGrowing := true }]
        none (some 0)).1)[0]?.map CellData.isHovered = some true ∧
    (animateCell 0.02 fallbackColors (some 0) 0 0 0 0 ⟨0, 0, 0⟩
        { initCell 0 0 0 0 0 with
            hasSpawned := true, isGrowing := true, isHovered := true }
        initView).2.opacity = 0 := by
  refine ⟨rfl, rfl, rfl, ?_⟩
  have h := animateCell_growing_mid 0.02 fallbackColors (some 0) 0 0 0 0
    ⟨0, 0, 0⟩
    { initCell 0 0 0 0 0 with
        hasSpawned := true, isGrowing := true, isHovered := true }
    initView rfl rfl rfl (by norm_num [initCell])
  rw [h]

/-- C8 (amended): on pointer move the previously hovered cell's hover flag
is cleared unless it is mid-collapse, and the flag is set on the newly hit
cell unless it is collapsing; given a raycast hit on an IDLE cell C
(spawned, not growing, not hidden, not collapsing), the next per-frame
update sets C's fill opacity to 1 and its fill/wireframe colors to the
hover palette; moving the pointer off-canvas (no hit) clears the
hovered-cell reference, and on the next update an idle, non-highlighted
cell reverts to the base appearance. -/
theorem c8_hover_amended :
    (∀ (cells : List CellData) (i : Nat) (ci : CellData),
      cells[i]? = some ci →
      (ci.isCollapsing = false →
        (clearPrevHover cells (some i))[i]? =
          some { ci with isHovered := false }) ∧
      (ci.isCollapsing = true → clearPrevHover cells (some i) = cells)) ∧
    (∀ (cells : List CellData) (hovered : Option Nat) (j : Nat)
        (cj : CellData), (clearPrevHover cells hovered)[j]? = some cj →
      (cj.isCollapsing = false →
        ((handleMouseMove cells hovered (some j)).1)[j]? =
            some { cj with isHovered := true } ∧
          (handleMouseMove cells hovered (some j)).2 = some j) ∧
      (cj.isCollapsing = true →
        handleMouseMove cells hovered (some j) =
          (clearPrevHover cells hovered, some j))) ∧
    (∀ (time : ℚ) (colors : Colors) (id : Nat) (s1 s2 s3 : ℚ) (r : Roll)
        (c : CellData) (v : CellView),
      c.hasSpawned = true → c.isHidden = false → c.isGrowing = false →
      c.isCollapsing = false →
      animateCell time colors (some id) id s1 s2 s3 r c v =
        (c, { v with scaleY := targetScaleOf s1 s2 s3
                     posY := 0
                     opacity := 1
                     fillColor := colors.fillHover
                     wireColor := colors.wireframeHover })) ∧
    (∀ (cells : List CellData) (hovered : Option Nat),
      (handleMouseMove cells hovered none).2 = none) ∧
    (∀ (time : ℚ) (colors : Colors) (id : Nat) (s1 s2 s3 : ℚ) (r : Roll)
        (c : CellData) (v : CellView),
      c.hasSpawned = true → c.isHidden = false → c.isGrowing = false →
      c.isCollapsing = false →
      ¬ highlightCycleOf time c.highlightTime < 0.5 →
      animateCell time colors none id s1 s2 s3 r c v =
        (c, { v with scaleY := targetScaleOf s1 s2 s3
                     posY := 0
                     opacity := 0
                     fillColor := colors.fill
                     wireColor := colors.wireframe })) := by
  refine ⟨clearPrevHover_clears, handleMouseMove_sets, ?_,
    handleMouseMove_none, ?_⟩
  · intro time colors id s1 s2 s3 r c v hS hH hG hC
    exact animateCell_idle_hovered time colors id s1 s2 s3 r c v hS hH hG hC
  · intro time colors id s1 s2 s3 r c v hS hH hG hC hCy
    exact animateCell_idle_base time colors id s1 s2 s3 r c v hS hH hG hC hCy

/-- C8 witness: a concrete idle hovered cell gets opacity 1 and the hover
palette on the next update; a concrete no-hit pointer move clears the
reference. -/
theorem c8_witness :
    (animateCell 1 fallbackColors (some 0) 0 0 0 0 ⟨0, 0, 0⟩
        { initCell 0 0 0 0 0 with hasSpawned := true }
        initView).2.opacity = 1 ∧
    (handleMouseMove [initCell 0 0 0 0 0] none none).2 = none := by
  constructor
  · have h := c8_hover_amended.2.2.1 1 fallbackColors 0 0 0 0 ⟨0, 0, 0⟩
      { initCell 0 0 0 0 0 with hasSpawned := true } initView rfl rfl rfl rfl
    rw [h]
  · exact c8_hover_amended.2.2.2.1 [initCell 0 0 0 0 0] none

end Hero
